import Mathlib

/-!
Shallow embedding of the OTP / session subsystem of the Shopify MCP server
(`src/index.ts`): the two process-wide maps `otpStorage` and
`activeSessions`, and the tools `request-order-otp`, `verify-order-otp` and
the token-gated `get-orders`.

Modelling conventions:
* Timestamps are natural numbers, milliseconds since epoch, as returned by
  `Date.now()`.  The gate's age test `Date.now() - session.createdAt > 3600*1000`
  uses truncated `Nat` subtraction; this agrees with the JavaScript verdict on
  every input (a negative JS difference and a truncated-to-zero `Nat`
  difference both fail the `> 3600000` test).
* A JS `Map` is modelled as an association list with `Map.get` / `Map.set` /
  `Map.delete` counterparts (`mapGet` / `mapSet` / `mapDelete`).
* External collaborators are parameters: the mail dispatch outcome of
  `resend.emails.send` is an `Option String` (`some err` when the awaited call
  throws), `Math.random()` is a rational argument in `[0,1)`, `randomUUID()` is
  a token argument, and the customer/order enrichment lookups of
  `verify-order-otp` are an `Enrichment` value describing what the external
  calls produced (a thrown error, an empty customer list, or a customer with
  serialized orders).
* A tool handler's returned value `{ isError?, content: [{type:"text", text}] }`
  is modelled as `ToolResult` (the `isError` flag and the text).  Returning an
  error result (as opposed to throwing) is the only failure channel in the
  embedding, matching the source's catch-and-return style.
-/

namespace ShopifyMcp

/-- `Map.get`: the value stored under key `k`, if any (association list,
most recent binding first). -/
def mapGet {α : Type} (m : List (String × α)) (k : String) : Option α :=
  (m.find? (fun p => p.1 == k)).map Prod.snd

/-- `Map.set`: bind `k` to `v`, overwriting any previous binding of `k`. -/
def mapSet {α : Type} (m : List (String × α)) (k : String) (v : α) :
    List (String × α) :=
  (k, v) :: m.filter (fun p => !(p.1 == k))

/-- `Map.delete`: drop every binding of `k`. -/
def mapDelete {α : Type} (m : List (String × α)) (k : String) :
    List (String × α) :=
  m.filter (fun p => !(p.1 == k))

theorem find_filter_ne {α : Type} (m : List (String × α)) (k k' : String)
    (h : k ≠ k') :
    List.find? (fun p => p.1 == k') (m.filter (fun p => !(p.1 == k))) =
      List.find? (fun p => p.1 == k') m := by
  induction m with
  | nil => rfl
  | cons p t ih =>
    rw [List.filter_cons]
    by_cases hp : p.1 = k
    · rw [if_neg (by simp [hp]), ih,
        List.find?_cons_of_neg _ (by simp [hp, h])]
    · rw [if_pos (by simp [hp])]
      by_cases hp' : p.1 = k'
      · rw [List.find?_cons_of_pos _ (by simp [hp']),
          List.find?_cons_of_pos _ (by simp [hp'])]
      · rw [List.find?_cons_of_neg _ (by simp [hp']),
          List.find?_cons_of_neg _ (by simp [hp']), ih]

theorem find_filter_self {α : Type} (m : List (String × α)) (k : String) :
    List.find? (fun p => p.1 == k) (m.filter (fun p => !(p.1 == k))) =
      none := by
  rw [List.find?_eq_none]
  intro x hx
  have hmem := (List.mem_filter.mp hx).2
  simp at hmem
  simp [hmem]

theorem mapGet_mapSet_self {α : Type} (m : List (String × α)) (k : String)
    (v : α) : mapGet (mapSet m k v) k = some v := by
  simp only [mapGet, mapSet]
  rw [List.find?_cons_of_pos _ (by simp)]
  rfl

theorem mapGet_mapSet_ne {α : Type} (m : List (String × α)) (k k' : String)
    (v : α) (h : k ≠ k') : mapGet (mapSet m k v) k' = mapGet m k' := by
  simp only [mapGet, mapSet]
  rw [List.find?_cons_of_neg _ (by simp [h]), find_filter_ne _ _ _ h]

theorem mapGet_mapDelete_self {α : Type} (m : List (String × α))
    (k : String) : mapGet (mapDelete m k) k = none := by
  simp only [mapGet, mapDelete]
  rw [find_filter_self]
  rfl

theorem mapGet_mapDelete_ne {α : Type} (m : List (String × α))
    (k k' : String) (h : k ≠ k') :
    mapGet (mapDelete m k) k' = mapGet m k' := by
  simp only [mapGet, mapDelete]
  rw [find_filter_ne _ _ _ h]

theorem countP_mapSet {α : Type} (m : List (String × α)) (k : String)
    (v : α) :
    (mapSet m k v).countP (fun p => p.1 == k) = 1 := by
  simp only [mapSet, List.countP_cons]
  have hz : (m.filter (fun p => !(p.1 == k))).countP (fun p => p.1 == k) = 0 := by
    rw [List.countP_eq_zero]
    intro p hp
    have := List.of_mem_filter hp
    simpa using this
  simp [hz]

/-- One entry of `otpStorage`: `{ code, expires }` (expiry in ms). -/
structure OtpEntry where
  code : String
  expires : Nat
deriving Repr, DecidableEq

/-- One entry of `activeSessions`: `{ email, createdAt }` (creation in ms). -/
structure SessionEntry where
  email : String
  createdAt : Nat
deriving Repr, DecidableEq

/-- The process-wide mutable state: the two maps declared at module top
level in `src/index.ts`. -/
structure ServerState where
  otpStorage : List (String × OtpEntry)
  activeSessions : List (String × SessionEntry)
deriving Repr, DecidableEq

/-- An MCP tool handler result: the optional `isError` flag (absent means
`false`) and the text of the single content item. -/
structure ToolResult where
  isError : Bool
  text : String
deriving Repr, DecidableEq

/-- The error result of `verify-order-otp`. -/
def invalidOrExpiredResult : ToolResult := ⟨true, "Invalid or expired OTP"⟩

/-- The `get-orders` rejection for a token with no session. -/
def unauthorizedInvalidToken : ToolResult := ⟨true, "Unauthorized: Invalid token"⟩

/-- The `get-orders` rejection for a session older than one hour. -/
def unauthorizedTokenExpired : ToolResult := ⟨true, "Unauthorized: Token expired"⟩

/-- `Math.floor(100000 + r * 900000)` for `r = Math.random()`. -/
def genOtpCode (q : ℚ) : ℤ := ⌊(100000 : ℚ) + q * 900000⌋

/-- `Math.floor(100000 + Math.random() * 900000).toString()`. -/
def genOtpCodeStr (q : ℚ) : String := toString (genOtpCode q)

/-- The `request-order-otp` tool handler.  `now` is `Date.now()`, `q` the
`Math.random()` draw, `mailFailure` the outcome of the awaited
`resend.emails.send` call (`some err` when it throws, with `err` the
stringified error).  The OTP is stored before the mail dispatch is
attempted, so it is stored in both outcomes. -/
def requestOrderOtp (s : ServerState) (email : String) (now : Nat) (q : ℚ)
    (mailFailure : Option String) : ToolResult × ServerState :=
  let code := genOtpCodeStr q
  let s1 : ServerState :=
    { s with otpStorage := mapSet s.otpStorage email ⟨code, now + 5 * 60 * 1000⟩ }
  match mailFailure with
  | none => (⟨false, "OTP sent to " ++ email⟩, s1)
  | some err => (⟨true, "Failed to send OTP: " ++ err⟩, s1)

/-- Outcome of the enrichment phase of `verify-order-otp`: the body of its
`try` block after the session is stored.  `throws` covers a throw from either
`getCustomers.execute` or `getCustomerOrders.execute` (one shared `catch`);
`noCustomer` is an empty customer list; `found` carries the customer's first
name, global id, and the serialized orders of the `getCustomerOrders` call. -/
inductive Enrichment where
  | throws (err : String)
  | noCustomer
  | found (firstName : String) (gid : String) (ordersJson : String)
deriving Repr, DecidableEq

/-- `customer.id.split('/').pop()`: the segment after the last `/` of a
global id such as `gid://shopify/Customer/123456`. -/
def extractCustomerId (gid : String) : String :=
  ((gid.splitOn "/").getLast?).getD ""

/-- `JSON.stringify({ token, message })` (string escaping elided). -/
def jsonTokenMessage (token msg : String) : String :=
  "\x7b\"token\":\"" ++ token ++ "\",\"message\":\"" ++ msg ++ "\"\x7d"

/-- `JSON.stringify({ token, firstName, orders })` (string escaping elided;
`ordersJson` is the serialized orders array). -/
def jsonTokenOrders (token firstName ordersJson : String) : String :=
  "\x7b\"token\":\"" ++ token ++ "\",\"firstName\":\"" ++ firstName ++
    "\",\"orders\":" ++ ordersJson ++ "\x7d"

/-- The `verify-order-otp` tool handler.  `now` is `Date.now()`, `token` the
`randomUUID()` draw, `enrich` the outcome of the external enrichment
lookups.  Mirrors the source guard
`!stored || stored.code !== code || Date.now() > stored.expires`. -/
def verifyOrderOtp (s : ServerState) (email code : String) (now : Nat)
    (token : String) (enrich : Enrichment) : ToolResult × ServerState :=
  match mapGet s.otpStorage email with
  | none => (invalidOrExpiredResult, s)
  | some stored =>
    if stored.code ≠ code ∨ now > stored.expires then
      (invalidOrExpiredResult, s)
    else
      let s1 : ServerState :=
        { otpStorage := mapDelete s.otpStorage email,
          activeSessions := mapSet s.activeSessions token ⟨email, now⟩ }
      match enrich with
      | .noCustomer =>
          (⟨false, jsonTokenMessage token
              "Verified, but no customer found with this email."⟩, s1)
      | .found firstName _gid ordersJson =>
          (⟨false, jsonTokenOrders token firstName ordersJson⟩, s1)
      | .throws err =>
          (⟨false, jsonTokenMessage token
              ("Verified, but failed to retrieve orders: " ++ err)⟩, s1)

/-- The token-gated `get-orders` tool handler.  `now` is `Date.now()`;
`ordersResult` is the serialized result of the underlying
`getOrders.execute(rest)` call, consumed only when the gate admits the
token. -/
def getOrdersGate (s : ServerState) (token : String) (now : Nat)
    (ordersResult : String) : ToolResult × ServerState :=
  match mapGet s.activeSessions token with
  | none => (unauthorizedInvalidToken, s)
  | some session =>
    if now - session.createdAt > 3600 * 1000 then
      (unauthorizedTokenExpired,
        { s with activeSessions := mapDelete s.activeSessions token })
    else
      (⟨false, ordersResult⟩, s)

/-! ### Helper lemmas about the three handlers -/

theorem verifyOrderOtp_absent (s : ServerState) (email code : String)
    (now : Nat) (token : String) (enrich : Enrichment)
    (h : mapGet s.otpStorage email = none) :
    verifyOrderOtp s email code now token enrich = (invalidOrExpiredResult, s) := by
  simp [verifyOrderOtp, h]

theorem verifyOrderOtp_guard (s : ServerState) (email code : String)
    (now : Nat) (token : String) (enrich : Enrichment) (e : OtpEntry)
    (h : mapGet s.otpStorage email = some e)
    (hg : e.code ≠ code ∨ now > e.expires) :
    verifyOrderOtp s email code now token enrich = (invalidOrExpiredResult, s) := by
  simp only [verifyOrderOtp, h]
  rw [if_pos hg]

theorem verifyOrderOtp_success_state (s : ServerState) (email code : String)
    (now : Nat) (token : String) (enrich : Enrichment) (e : OtpEntry)
    (h : mapGet s.otpStorage email = some e)
    (hg : ¬(e.code ≠ code ∨ now > e.expires)) :
    (verifyOrderOtp s email code now token enrich).2 =
      ⟨mapDelete s.otpStorage email, mapSet s.activeSessions token ⟨email, now⟩⟩ ∧
    (verifyOrderOtp s email code now token enrich).1.isError = false := by
  simp only [verifyOrderOtp, h]
  rw [if_neg hg]
  cases enrich <;> exact ⟨rfl, rfl⟩

theorem verifyOrderOtp_not_invalid_cases (s : ServerState)
    (email code : String) (now : Nat) (token : String) (enrich : Enrichment)
    (hne : (verifyOrderOtp s email code now token enrich).1 ≠ invalidOrExpiredResult) :
    ∃ e, mapGet s.otpStorage email = some e ∧
      ¬(e.code ≠ code ∨ now > e.expires) := by
  cases hstored : mapGet s.otpStorage email with
  | none => exact absurd (by rw [verifyOrderOtp_absent _ _ _ _ _ _ hstored]) hne
  | some e =>
    by_cases hg : e.code ≠ code ∨ now > e.expires
    · exact absurd (by rw [verifyOrderOtp_guard _ _ _ _ _ _ _ hstored hg]) hne
    · exact ⟨e, rfl, hg⟩

/-- C1: `verify-order-otp` fails with `InvalidOrExpired` exactly when the
credential store has no entry for the email, the stored code differs from
the submitted one, or the current time exceeds the stored expiry; on success
it deletes the credential-store entry, stores a session mapping the fresh
token to the email with the current timestamp, and a second verification
attempt with the same email and code fails with `InvalidOrExpired` (codes
are single-use). -/
theorem verify_otp_fail_iff_and_single_use
    (s : ServerState) (email code : String) (now : Nat) (token : String)
    (enrich : Enrichment) :
    ((verifyOrderOtp s email code now token enrich).1 = invalidOrExpiredResult ↔
      mapGet s.otpStorage email = none ∨
        ∃ e, mapGet s.otpStorage email = some e ∧
          (e.code ≠ code ∨ now > e.expires)) ∧
    ((verifyOrderOtp s email code now token enrich).1 ≠ invalidOrExpiredResult →
      mapGet (verifyOrderOtp s email code now token enrich).2.otpStorage email = none ∧
      mapGet (verifyOrderOtp s email code now token enrich).2.activeSessions token =
        some ⟨email, now⟩ ∧
      ∀ now2 token2 enrich2,
        (verifyOrderOtp (verifyOrderOtp s email code now token enrich).2
            email code now2 token2 enrich2).1 = invalidOrExpiredResult) := by
  constructor
  · constructor
    · intro hinv
      by_contra hcon
      push_neg at hcon
      obtain ⟨hnone, hsome⟩ := hcon
      cases hstored : mapGet s.otpStorage email with
      | none => exact hnone hstored
      | some e =>
        by_cases hg : e.code ≠ code ∨ now > e.expires
        · rcases hg with hg1 | hg2
          · exact hg1 (hsome e hstored).1
          · exact absurd hg2 (not_lt.mpr (hsome e hstored).2)
        · have := verifyOrderOtp_success_state s email code now token enrich e
            hstored hg
          rw [hinv] at this
          simp [invalidOrExpiredResult] at this
    · rintro (hnone | ⟨e, hstored, hg⟩)
      · rw [verifyOrderOtp_absent _ _ _ _ _ _ hnone]
      · rw [verifyOrderOtp_guard _ _ _ _ _ _ _ hstored hg]
  · intro hne
    obtain ⟨e, hstored, hg⟩ := verifyOrderOtp_not_invalid_cases _ _ _ _ _ _ hne
    have hstate := (verifyOrderOtp_success_state s email code now token enrich e
      hstored hg).1
    rw [hstate]
    refine ⟨mapGet_mapDelete_self _ _, mapGet_mapSet_self _ _ _, ?_⟩
    intro now2 token2 enrich2
    rw [verifyOrderOtp_absent _ _ _ _ _ _ (mapGet_mapDelete_self _ _)]

/-- Witness for C1 on the success path: with a stored OTP `123456` for
`a@x.com` expiring at 300000 ms, verifying at 10 ms with code `123456`
consumes the OTP, stores the session, and a replay fails. -/
theorem verify_otp_fail_iff_and_single_use_witness :
    mapGet (verifyOrderOtp ⟨[("a@x.com", ⟨"123456", 300000⟩)], []⟩
        "a@x.com" "123456" 10 "tok" .noCustomer).2.otpStorage "a@x.com" = none ∧
    mapGet (verifyOrderOtp ⟨[("a@x.com", ⟨"123456", 300000⟩)], []⟩
        "a@x.com" "123456" 10 "tok" .noCustomer).2.activeSessions "tok" =
      some ⟨"a@x.com", 10⟩ ∧
    (verifyOrderOtp (verifyOrderOtp ⟨[("a@x.com", ⟨"123456", 300000⟩)], []⟩
        "a@x.com" "123456" 10 "tok" .noCustomer).2
        "a@x.com" "123456" 20 "tok2" .noCustomer).1 = invalidOrExpiredResult := by
  have h := (verify_otp_fail_iff_and_single_use
    ⟨[("a@x.com", ⟨"123456", 300000⟩)], []⟩
    "a@x.com" "123456" 10 "tok" .noCustomer).2 (by decide)
  exact ⟨h.1, h.2.1, h.2.2 20 "tok2" .noCustomer⟩

theorem getOrdersGate_absent (s : ServerState) (token : String) (now : Nat)
    (ordersResult : String) (h : mapGet s.activeSessions token = none) :
    getOrdersGate s token now ordersResult = (unauthorizedInvalidToken, s) := by
  simp [getOrdersGate, h]

theorem getOrdersGate_expired (s : ServerState) (token : String) (now : Nat)
    (ordersResult : String) (sess : SessionEntry)
    (h : mapGet s.activeSessions token = some sess)
    (hg : now - sess.createdAt > 3600 * 1000) :
    getOrdersGate s token now ordersResult =
      (unauthorizedTokenExpired,
        { s with activeSessions := mapDelete s.activeSessions token }) := by
  simp only [getOrdersGate, h]
  rw [if_pos hg]

theorem getOrdersGate_fresh (s : ServerState) (token : String) (now : Nat)
    (ordersResult : String) (sess : SessionEntry)
    (h : mapGet s.activeSessions token = some sess)
    (hg : ¬(now - sess.createdAt > 3600 * 1000)) :
    getOrdersGate s token now ordersResult = (⟨false, ordersResult⟩, s) := by
  simp only [getOrdersGate, h]
  rw [if_neg hg]

/-- C2 counterexample: with one session for token `t` created at 0 and the
clock at 4000000 ms (past the one-hour window), the unknown token `u` and
the expired token `t` are both rejected, but with different error texts, so
the caller can tell which sub-cause applied. -/
theorem gate_distinct_messages_counterexample :
    (getOrdersGate ⟨[], [("t", ⟨"a@x.com", 0⟩)]⟩ "u" 4000000 "[]").1.isError = true ∧
    (getOrdersGate ⟨[], [("t", ⟨"a@x.com", 0⟩)]⟩ "t" 4000000 "[]").1.isError = true ∧
    mapGet (ServerState.activeSessions ⟨[], [("t", ⟨"a@x.com", 0⟩)]⟩) "u" = none ∧
    mapGet (ServerState.activeSessions ⟨[], [("t", ⟨"a@x.com", 0⟩)]⟩) "t" =
      some ⟨"a@x.com", 0⟩ ∧
    (getOrdersGate ⟨[], [("t", ⟨"a@x.com", 0⟩)]⟩ "u" 4000000 "[]").1.text ≠
      (getOrdersGate ⟨[], [("t", ⟨"a@x.com", 0⟩)]⟩ "t" 4000000 "[]").1.text := by
  decide

/-- C2 (amended): the Session Gate surfaces the two Unauthorized sub-causes
as two distinct error messages — `Unauthorized: Invalid token` for an
unknown token and `Unauthorized: Token expired` for an expired one — both
marked as errors, so the caller can distinguish which sub-cause applied. -/
theorem gate_two_submessages (s : ServerState) (token : String) (now : Nat)
    (ordersResult : String) :
    (mapGet s.activeSessions token = none →
      (getOrdersGate s token now ordersResult).1 = unauthorizedInvalidToken) ∧
    (∀ sess, mapGet s.activeSessions token = some sess →
      now - sess.createdAt > 3600 * 1000 →
      (getOrdersGate s token now ordersResult).1 = unauthorizedTokenExpired) ∧
    unauthorizedInvalidToken.isError = true ∧
    unauthorizedTokenExpired.isError = true ∧
    unauthorizedInvalidToken.text ≠ unauthorizedTokenExpired.text := by
  refine ⟨fun h => ?_, fun sess h hg => ?_, rfl, rfl, by decide⟩
  · rw [getOrdersGate_absent _ _ _ _ h]
  · rw [getOrdersGate_expired _ _ _ _ _ h hg]

/-- Witness for the amended C2: the two rejections of the counterexample
state produce exactly the two distinct messages. -/
theorem gate_two_submessages_witness :
    (getOrdersGate ⟨[], [("t", ⟨"a@x.com", 0⟩)]⟩ "u" 4000000 "[]").1 =
      unauthorizedInvalidToken ∧
    (getOrdersGate ⟨[], [("t", ⟨"a@x.com", 0⟩)]⟩ "t" 4000000 "[]").1 =
      unauthorizedTokenExpired :=
  ⟨(gate_two_submessages ⟨[], [("t", ⟨"a@x.com", 0⟩)]⟩ "u" 4000000 "[]").1
      (by decide),
   (gate_two_submessages ⟨[], [("t", ⟨"a@x.com", 0⟩)]⟩ "t" 4000000 "[]").2.1
      ⟨"a@x.com", 0⟩ (by decide) (by decide)⟩

/-- C3: the gate rejects a token with no session, and a token whose session
age exceeds one hour (deleting that session as a side effect), in both cases
independently of the underlying order operation's result (it is not
dispatched); a token whose session exists and is within the window is
admitted and the underlying result is returned. -/
theorem gate_reject_and_grant (s : ServerState) (token : String) (now : Nat)
    (ordersResult : String) :
    (mapGet s.activeSessions token = none →
      (getOrdersGate s token now ordersResult).1.isError = true ∧
      (getOrdersGate s token now ordersResult).2 = s ∧
      ∀ other, getOrdersGate s token now other =
        getOrdersGate s token now ordersResult) ∧
    (∀ sess, mapGet s.activeSessions token = some sess →
      now - sess.createdAt > 3600 * 1000 →
      (getOrdersGate s token now ordersResult).1.isError = true ∧
      mapGet (getOrdersGate s token now ordersResult).2.activeSessions token = none ∧
      ∀ other, getOrdersGate s token now other =
        getOrdersGate s token now ordersResult) ∧
    (∀ sess, mapGet s.activeSessions token = some sess →
      ¬(now - sess.createdAt > 3600 * 1000) →
      (getOrdersGate s token now ordersResult).1 = ⟨false, ordersResult⟩ ∧
      (getOrdersGate s token now ordersResult).2 = s) := by
  refine ⟨fun h => ?_, fun sess h hg => ?_, fun sess h hg => ?_⟩
  · rw [getOrdersGate_absent _ _ _ _ h]
    exact ⟨rfl, rfl, fun other => by rw [getOrdersGate_absent _ _ _ _ h]⟩
  · rw [getOrdersGate_expired _ _ _ _ _ h hg]
    exact ⟨rfl, mapGet_mapDelete_self _ _,
      fun other => by rw [getOrdersGate_expired _ _ _ _ _ h hg]⟩
  · rw [getOrdersGate_fresh _ _ _ _ _ h hg]
    exact ⟨rfl, rfl⟩

/-- Witness for C3 on the expiry path: the session created at 0, queried at
4000000 ms, is rejected and evicted; the same state queried at 1000 ms is
admitted. -/
theorem gate_reject_and_grant_witness :
    ((getOrdersGate ⟨[], [("t", ⟨"a@x.com", 0⟩)]⟩ "t" 4000000 "[]").1.isError = true ∧
      mapGet (getOrdersGate ⟨[], [("t", ⟨"a@x.com", 0⟩)]⟩
        "t" 4000000 "[]").2.activeSessions "t" = none) ∧
    (getOrdersGate ⟨[], [("t", ⟨"a@x.com", 0⟩)]⟩ "t" 1000 "[]").1 =
      ⟨false, "[]"⟩ :=
  ⟨⟨((gate_reject_and_grant ⟨[], [("t", ⟨"a@x.com", 0⟩)]⟩ "t" 4000000 "[]").2.1
        ⟨"a@x.com", 0⟩ (by decide) (by decide)).1,
    ((gate_reject_and_grant ⟨[], [("t", ⟨"a@x.com", 0⟩)]⟩ "t" 4000000 "[]").2.1
        ⟨"a@x.com", 0⟩ (by decide) (by decide)).2.1⟩,
   ((gate_reject_and_grant ⟨[], [("t", ⟨"a@x.com", 0⟩)]⟩ "t" 1000 "[]").2.2
        ⟨"a@x.com", 0⟩ (by decide) (by decide)).1⟩

/-- C10: a successful token-gated order query leaves the whole state — in
particular the Session Store — unchanged, so while its age stays within the
one-hour window the same token keeps being admitted on further gated
calls. -/
theorem gate_success_frame (s : ServerState) (token : String) (now : Nat)
    (ordersResult : String)
    (hok : (getOrdersGate s token now ordersResult).1.isError = false) :
    (getOrdersGate s token now ordersResult).2 = s ∧
    ∀ sess now2 other, mapGet s.activeSessions token = some sess →
      now2 - sess.createdAt ≤ 3600 * 1000 →
      (getOrdersGate (getOrdersGate s token now ordersResult).2
        token now2 other).1.isError = false := by
  have hframe : (getOrdersGate s token now ordersResult).2 = s := by
    cases h : mapGet s.activeSessions token with
    | none =>
      rw [getOrdersGate_absent _ _ _ _ h] at hok
      simp [unauthorizedInvalidToken] at hok
    | some sess =>
      by_cases hg : now - sess.createdAt > 3600 * 1000
      · rw [getOrdersGate_expired _ _ _ _ _ h hg] at hok
        simp [unauthorizedTokenExpired] at hok
      · rw [getOrdersGate_fresh _ _ _ _ _ h hg]
  refine ⟨hframe, fun sess now2 other h hfresh => ?_⟩
  rw [hframe, getOrdersGate_fresh _ _ _ _ _ h (not_lt.mpr hfresh)]

/-- Witness for C10: a fresh session admitted at 1000 ms leaves the state
unchanged and is admitted again at 2000 ms. -/
theorem gate_success_frame_witness :
    (getOrdersGate ⟨[], [("t", ⟨"a@x.com", 0⟩)]⟩ "t" 1000 "[]").2 =
      ⟨[], [("t", ⟨"a@x.com", 0⟩)]⟩ ∧
    (getOrdersGate (getOrdersGate ⟨[], [("t", ⟨"a@x.com", 0⟩)]⟩
        "t" 1000 "[]").2 "t" 2000 "xyz").1.isError = false :=
  ⟨(gate_success_frame ⟨[], [("t", ⟨"a@x.com", 0⟩)]⟩ "t" 1000 "[]"
      (by decide)).1,
   (gate_success_frame ⟨[], [("t", ⟨"a@x.com", 0⟩)]⟩ "t" 1000 "[]"
      (by decide)).2 ⟨"a@x.com", 0⟩ 2000 "xyz" (by decide) (by decide)⟩

/-- C4: once the code check passes, `verify-order-otp` returns a success
result carrying the session token in every enrichment outcome: when the
customer lookup finds nobody a substituted message is returned, and when
either enrichment lookup throws the error is stringified into the message —
enrichment failure never downgrades the verification success. -/
theorem verify_enrichment_never_downgrades (s : ServerState)
    (email code : String) (now : Nat) (token : String) (e : OtpEntry)
    (h : mapGet s.otpStorage email = some e)
    (hcode : e.code = code) (hexp : ¬ now > e.expires) :
    (verifyOrderOtp s email code now token .noCustomer).1 =
      ⟨false, jsonTokenMessage token
        "Verified, but no customer found with this email."⟩ ∧
    (∀ err, (verifyOrderOtp s email code now token (.throws err)).1 =
      ⟨false, jsonTokenMessage token
        ("Verified, but failed to retrieve orders: " ++ err)⟩) ∧
    (∀ firstName gid ordersJson,
      (verifyOrderOtp s email code now token
          (.found firstName gid ordersJson)).1 =
        ⟨false, jsonTokenOrders token firstName ordersJson⟩) := by
  have hg : ¬(e.code ≠ code ∨ now > e.expires) := by
    push_neg
    exact ⟨hcode, not_lt.mp hexp⟩
  refine ⟨?_, fun err => ?_, fun firstName gid ordersJson => ?_⟩ <;>
    · simp only [verifyOrderOtp, h]
      rw [if_neg hg]

/-- Witness for C4: with OTP `123456` stored for `a@x.com`, a verification
whose enrichment throws still returns a success result carrying the
token. -/
theorem verify_enrichment_never_downgrades_witness :
    (verifyOrderOtp ⟨[("a@x.com", ⟨"123456", 300000⟩)], []⟩
        "a@x.com" "123456" 10 "tok" (.throws "boom")).1 =
      ⟨false, jsonTokenMessage "tok"
        ("Verified, but failed to retrieve orders: " ++ "boom")⟩ :=
  (verify_enrichment_never_downgrades ⟨[("a@x.com", ⟨"123456", 300000⟩)], []⟩
      "a@x.com" "123456" 10 "tok" ⟨"123456", 300000⟩
      (by decide) rfl (by decide)).2.1 "boom"

/-- C9: whenever `verify-order-otp` returns `InvalidOrExpired` the whole
state — both stores — is unchanged; in particular a wrong-code attempt does
not consume the pending OTP, which can afterwards still be verified with the
correct code before its expiry. -/
theorem verify_fail_frame (s : ServerState) (email code : String) (now : Nat)
    (token : String) (enrich : Enrichment) :
    ((verifyOrderOtp s email code now token enrich).1 = invalidOrExpiredResult →
      (verifyOrderOtp s email code now token enrich).2 = s) ∧
    (∀ e, mapGet s.otpStorage email = some e → e.code ≠ code →
      (verifyOrderOtp s email code now token enrich).1 = invalidOrExpiredResult ∧
      (verifyOrderOtp s email code now token enrich).2 = s ∧
      ∀ now2 token2 enrich2, ¬ now2 > e.expires →
        (verifyOrderOtp (verifyOrderOtp s email code now token enrich).2
            email e.code now2 token2 enrich2).1.isError = false) := by
  constructor
  · intro hinv
    cases hstored : mapGet s.otpStorage email with
    | none => rw [verifyOrderOtp_absent _ _ _ _ _ _ hstored]
    | some e =>
      by_cases hg : e.code ≠ code ∨ now > e.expires
      · rw [verifyOrderOtp_guard _ _ _ _ _ _ _ hstored hg]
      · have := (verifyOrderOtp_success_state s email code now token enrich e
          hstored hg).2
        rw [hinv] at this
        simp [invalidOrExpiredResult] at this
  · intro e hstored hne
    have hfail := verifyOrderOtp_guard s email code now token enrich e hstored
      (Or.inl hne)
    rw [hfail]
    refine ⟨rfl, rfl, fun now2 token2 enrich2 hexp => ?_⟩
    exact (verifyOrderOtp_success_state s email e.code now2 token2 enrich2 e
      hstored (by push_neg; exact ⟨rfl, not_lt.mp hexp⟩)).2

/-- Witness for C9: a wrong-code attempt (`000000`) against stored OTP
`123456` fails, leaves the state unchanged, and the correct code still
verifies afterwards. -/
theorem verify_fail_frame_witness :
    (verifyOrderOtp ⟨[("a@x.com", ⟨"123456", 300000⟩)], []⟩
        "a@x.com" "000000" 10 "tok" .noCustomer).1 = invalidOrExpiredResult ∧
    (verifyOrderOtp ⟨[("a@x.com", ⟨"123456", 300000⟩)], []⟩
        "a@x.com" "000000" 10 "tok" .noCustomer).2 =
      ⟨[("a@x.com", ⟨"123456", 300000⟩)], []⟩ ∧
    (verifyOrderOtp (verifyOrderOtp ⟨[("a@x.com", ⟨"123456", 300000⟩)], []⟩
        "a@x.com" "000000" 10 "tok" .noCustomer).2
        "a@x.com" "123456" 20 "tok2" .noCustomer).1.isError = false := by
  have h := (verify_fail_frame ⟨[("a@x.com", ⟨"123456", 300000⟩)], []⟩
    "a@x.com" "000000" 10 "tok" .noCustomer).2 ⟨"123456", 300000⟩
    (by decide) (by decide)
  exact ⟨h.1, h.2.1, h.2.2 20 "tok2" .noCustomer (by decide)⟩

theorem requestOrderOtp_state (s : ServerState) (email : String) (now : Nat)
    (q : ℚ) (mf : Option String) :
    (requestOrderOtp s email now q mf).2 =
      { s with otpStorage :=
          mapSet s.otpStorage email ⟨genOtpCodeStr q, now + 5 * 60 * 1000⟩ } := by
  cases mf <;> rfl

/-- C5: issuing an OTP overwrites any prior pending OTP for the same email:
after two issuances in succession exactly one `otpStorage` binding exists
for the email, it holds the second code, verifying with the first code fails
with `InvalidOrExpired`, and the second code verifies within its window. -/
theorem request_otp_overwrites (s : ServerState) (e : String)
    (now1 now2 : Nat) (q1 q2 : ℚ) (mf1 mf2 : Option String)
    (hcode : genOtpCodeStr q1 ≠ genOtpCodeStr q2) :
    ((requestOrderOtp s e now1 q1 mf1).2.otpStorage.countP
        (fun p => p.1 == e) = 1) ∧
    ((requestOrderOtp (requestOrderOtp s e now1 q1 mf1).2
        e now2 q2 mf2).2.otpStorage.countP (fun p => p.1 == e) = 1) ∧
    mapGet (requestOrderOtp (requestOrderOtp s e now1 q1 mf1).2
        e now2 q2 mf2).2.otpStorage e =
      some ⟨genOtpCodeStr q2, now2 + 5 * 60 * 1000⟩ ∧
    (∀ now3 token enrich,
      (verifyOrderOtp (requestOrderOtp (requestOrderOtp s e now1 q1 mf1).2
          e now2 q2 mf2).2 e (genOtpCodeStr q1) now3 token enrich).1 =
        invalidOrExpiredResult) ∧
    (∀ now3 token enrich, ¬ now3 > now2 + 5 * 60 * 1000 →
      (verifyOrderOtp (requestOrderOtp (requestOrderOtp s e now1 q1 mf1).2
          e now2 q2 mf2).2 e (genOtpCodeStr q2) now3 token enrich).1.isError =
        false) := by
  rw [requestOrderOtp_state, requestOrderOtp_state]
  refine ⟨countP_mapSet _ _ _, countP_mapSet _ _ _, mapGet_mapSet_self _ _ _,
    ?_, ?_⟩
  · intro now3 token enrich
    rw [verifyOrderOtp_guard _ _ _ now3 token enrich
      ⟨genOtpCodeStr q2, now2 + 5 * 60 * 1000⟩ (mapGet_mapSet_self _ _ _)
      (Or.inl (Ne.symm hcode))]
  · intro now3 token enrich hle
    exact (verifyOrderOtp_success_state _ e (genOtpCodeStr q2) now3 token
      enrich ⟨genOtpCodeStr q2, now2 + 5 * 60 * 1000⟩
      (mapGet_mapSet_self _ _ _)
      (by push_neg; exact ⟨rfl, not_lt.mp hle⟩)).2

/-- Witness for C5: issuing with random draws 0 (code 100000) then 1/2
(code 550000) for the same email keeps only the second code: 100000 is
rejected, 550000 verifies at 60 ms. -/
theorem request_otp_overwrites_witness :
    mapGet (requestOrderOtp (requestOrderOtp ⟨[], []⟩ "a@x.com" 0 0 none).2
        "a@x.com" 50 (1/2) none).2.otpStorage "a@x.com" =
      some ⟨genOtpCodeStr (1/2), 50 + 5 * 60 * 1000⟩ ∧
    (verifyOrderOtp (requestOrderOtp (requestOrderOtp ⟨[], []⟩
        "a@x.com" 0 0 none).2 "a@x.com" 50 (1/2) none).2
        "a@x.com" (genOtpCodeStr 0) 60 "tok" .noCustomer).1 =
      invalidOrExpiredResult ∧
    (verifyOrderOtp (requestOrderOtp (requestOrderOtp ⟨[], []⟩
        "a@x.com" 0 0 none).2 "a@x.com" 50 (1/2) none).2
        "a@x.com" (genOtpCodeStr (1/2)) 60 "tok" .noCustomer).1.isError =
      false := by
  have e1 : genOtpCodeStr 0 = "100000" := by
    rw [genOtpCodeStr]
    norm_num [genOtpCode]
    decide
  have e2 : genOtpCodeStr (1/2) = "550000" := by
    rw [genOtpCodeStr]
    norm_num [genOtpCode]
    decide
  have h := request_otp_overwrites ⟨[], []⟩ "a@x.com" 0 50 0 (1/2) none none
    (by rw [e1, e2]; decide)
  exact ⟨h.2.2.1, h.2.2.2.1 60 "tok" .noCustomer,
    h.2.2.2.2 60 "tok" .noCustomer (by decide)⟩

/-- C6: every stored OTP expires exactly 300 seconds (300000 ms) after
issuance, and any verification attempt strictly after that instant fails
with `InvalidOrExpired` whatever code is submitted — including the stored
one. -/
theorem otp_ttl_300s (s : ServerState) (email : String) (now : Nat)
    (q : ℚ) (mf : Option String) :
    mapGet (requestOrderOtp s email now q mf).2.otpStorage email =
      some ⟨genOtpCodeStr q, now + 300 * 1000⟩ ∧
    ∀ code now2 token enrich, now2 > now + 300 * 1000 →
      (verifyOrderOtp (requestOrderOtp s email now q mf).2 email code now2
          token enrich).1 = invalidOrExpiredResult := by
  rw [requestOrderOtp_state]
  refine ⟨mapGet_mapSet_self _ _ _, fun code now2 token enrich hgt => ?_⟩
  rw [verifyOrderOtp_guard _ _ code now2 token enrich
    ⟨genOtpCodeStr q, now + 5 * 60 * 1000⟩ (mapGet_mapSet_self _ _ _)
    (Or.inr hgt)]

/-- Witness for C6: an OTP issued at 0 ms expires at 300000 ms; verifying at
300001 ms with the stored code 100000 fails. -/
theorem otp_ttl_300s_witness :
    mapGet (requestOrderOtp ⟨[], []⟩ "a@x.com" 0 0 none).2.otpStorage
      "a@x.com" = some ⟨genOtpCodeStr 0, 0 + 300 * 1000⟩ ∧
    (verifyOrderOtp (requestOrderOtp ⟨[], []⟩ "a@x.com" 0 0 none).2
        "a@x.com" (genOtpCodeStr 0) 300001 "tok" .noCustomer).1 =
      invalidOrExpiredResult :=
  ⟨(otp_ttl_300s ⟨[], []⟩ "a@x.com" 0 0 none).1,
   (otp_ttl_300s ⟨[], []⟩ "a@x.com" 0 0 none).2 (genOtpCodeStr 0) 300001
     "tok" .noCustomer (by decide)⟩

/-- C7: when the mail dispatch throws, `request-order-otp` returns an error
result carrying the stringified failure, yet the OTP record is already
stored and still verifies with its code at any instant up to its expiry. -/
theorem request_otp_mail_failure (s : ServerState) (email : String)
    (now : Nat) (q : ℚ) (err : String) :
    (requestOrderOtp s email now q (some err)).1.isError = true ∧
    (requestOrderOtp s email now q (some err)).1.text =
      "Failed to send OTP: " ++ err ∧
    mapGet (requestOrderOtp s email now q (some err)).2.otpStorage email =
      some ⟨genOtpCodeStr q, now + 5 * 60 * 1000⟩ ∧
    ∀ now2 token enrich, ¬ now2 > now + 5 * 60 * 1000 →
      (verifyOrderOtp (requestOrderOtp s email now q (some err)).2 email
          (genOtpCodeStr q) now2 token enrich).1.isError = false := by
  refine ⟨rfl, rfl, ?_, ?_⟩
  · rw [requestOrderOtp_state]
    exact mapGet_mapSet_self _ _ _
  · intro now2 token enrich hle
    rw [requestOrderOtp_state]
    exact (verifyOrderOtp_success_state _ email (genOtpCodeStr q) now2 token
      enrich ⟨genOtpCodeStr q, now + 5 * 60 * 1000⟩
      (mapGet_mapSet_self _ _ _)
      (by push_neg; exact ⟨rfl, not_lt.mp hle⟩)).2

/-- Witness for C7: a dispatch failure `boom` at 0 ms yields an error
result, the OTP is stored, and its code 100000 still verifies at 10 ms. -/
theorem request_otp_mail_failure_witness :
    (requestOrderOtp ⟨[], []⟩ "a@x.com" 0 0 (some "boom")).1.isError = true ∧
    (requestOrderOtp ⟨[], []⟩ "a@x.com" 0 0 (some "boom")).1.text =
      "Failed to send OTP: " ++ "boom" ∧
    (verifyOrderOtp (requestOrderOtp ⟨[], []⟩ "a@x.com" 0 0 (some "boom")).2
        "a@x.com" (genOtpCodeStr 0) 10 "tok" .noCustomer).1.isError = false := by
  have h := request_otp_mail_failure ⟨[], []⟩ "a@x.com" 0 0 "boom"
  exact ⟨h.1, h.2.1, h.2.2.2 10 "tok" .noCustomer (by decide)⟩

/-- C8: for every random draw in `[0,1)` the generated OTP code lies in
100000–999999 inclusive, so its decimal representation has exactly six
digits with a nonzero leading digit, and the stored string is that decimal
representation. -/
theorem otp_code_six_digit_range (q : ℚ) (h0 : 0 ≤ q) (h1 : q < 1) :
    100000 ≤ genOtpCode q ∧ genOtpCode q ≤ 999999 ∧
    (Nat.digits 10 (genOtpCode q).toNat).length = 6 ∧
    (Nat.digits 10 (genOtpCode q).toNat).getLast? ≠ some 0 ∧
    genOtpCodeStr q = Nat.repr (genOtpCode q).toNat := by
  have hlo : (100000 : ℤ) ≤ genOtpCode q := by
    rw [genOtpCode, Int.le_floor]
    push_cast
    nlinarith
  have hhi : genOtpCode q < 1000000 := by
    rw [genOtpCode, Int.floor_lt]
    push_cast
    nlinarith
  have hn : (genOtpCode q).toNat ≠ 0 := by omega
  refine ⟨hlo, by omega, ?_, ?_, ?_⟩
  · rw [Nat.digits_len 10 _ (by norm_num) hn]
    have hlog : Nat.log 10 (genOtpCode q).toNat = 5 := by
      apply Nat.log_eq_of_pow_le_of_lt_pow <;> norm_num <;> omega
    omega
  · have hne : Nat.digits 10 (genOtpCode q).toNat ≠ [] :=
      Nat.digits_ne_nil_iff_ne_zero.mpr hn
    have hlast := Nat.getLast_digit_ne_zero 10 hn
    rw [List.getLast?_eq_getLast _ hne]
    intro hc
    injection hc with hc2
    exact hlast hc2
  · rw [genOtpCodeStr]
    cases hz : genOtpCode q with
    | ofNat n => rfl
    | negSucc n =>
      rw [hz] at hlo
      exact absurd hlo (not_le.mpr
        (lt_of_lt_of_le (Int.negSucc_lt_zero n) (by norm_num)))

/-- Witness for C8 at the draw 1/2: the code 550000 is six-digit with a
nonzero lead. -/
theorem otp_code_six_digit_range_witness :
    100000 ≤ genOtpCode (1/2) ∧ genOtpCode (1/2) ≤ 999999 ∧
    (Nat.digits 10 (genOtpCode (1/2)).toNat).length = 6 ∧
    (Nat.digits 10 (genOtpCode (1/2)).toNat).getLast? ≠ some 0 ∧
    genOtpCodeStr (1/2) = Nat.repr (genOtpCode (1/2)).toNat :=
  otp_code_six_digit_range (1/2) (by norm_num) (by norm_num)

end ShopifyMcp
